import Mathlib

/-!
Shallow embedding of the form-validation layer of `ws/forms.py` (mitoc-trips).

Each `clean_*` validator is embedded as a pure function from the data it
consults (cleaned form data, the bound model instance, the verified e-mail
list) to `Except ValidationErrorInfo α`, mirroring Django's convention that a
validator either raises `ValidationError` or returns the cleaned value.

Values of repository code that lives outside this module (the `Program` enum's
`winter_rules_apply`, `LeaderApplication.model_from_activity`, the dues table
`affiliation_to_annual_dues`, the payment constants) are abstracted as explicit
parameters: `forms.py` only ever calls them, so every theorem is stated for an
arbitrary choice of those parameters.
-/

/-- A Django `ValidationError` as raised by the clean methods: a user-facing
message plus an optional machine-readable code. -/
structure ValidationErrorInfo where
  message : String
  code : Option String
deriving DecidableEq

/-- Projection of the `Participant` model onto the fields `forms.py` reads.
The `can_lead` method (defined on the model, outside this module) is carried
as a per-participant predicate on the program value. -/
structure Participant where
  pk : Nat
  name : String
  email : String
  affiliation : String
  annual_dues : Nat
  can_lead : String → Bool

/-- Projection of the `SignUp` model: only `on_trip` is consulted here. -/
structure SignUp where
  on_trip : Bool
deriving DecidableEq

/-- Projection of the `Trip` model onto the fields `forms.py` reads.
`pk = none` models a not-yet-saved instance. -/
structure Trip where
  pk : Option Nat
  signup_set : List SignUp
  leaders : List Participant
  notes : String

/-- CODE of `MIT_UNDERGRAD` from the external `mitoc_const.affiliations`
library. -/
def MIT_UNDERGRAD_CODE : String := "MU"

/-- CODE of `MIT_GRAD_STUDENT` from the external `mitoc_const.affiliations`
library. -/
def MIT_GRAD_STUDENT_CODE : String := "MG"

/-- The set `mit_student_codes` built in `ParticipantForm.clean_affiliation`. -/
def mit_student_codes : List String := [MIT_UNDERGRAD_CODE, MIT_GRAD_STUDENT_CODE]

/-- Python's `s.lower().endswith(suffix)`, computed structurally on the
character list so that the kernel can evaluate it on concrete inputs. -/
def lower_ends_with (s : String) (suffix : String) : Bool :=
  suffix.data.isSuffixOf (s.data.map Char.toLower)

/-- Python's `s.strip()`: drop leading and trailing whitespace, computed
structurally on the character list. -/
def stripped (s : String) : String :=
  ⟨((s.data.dropWhile Char.isWhitespace).reverse.dropWhile Char.isWhitespace).reverse⟩

/-- Embedding of `ParticipantForm.clean_affiliation`. `verified_emails` is the
list the form captured in `__init__` (the user's verified addresses). -/
def clean_affiliation (verified_emails : List String) (affiliation : String) :
    Except ValidationErrorInfo String :=
  if affiliation ∉ mit_student_codes then
    Except.ok affiliation
  else if verified_emails.any (fun email => lower_ends_with email "mit.edu") then
    Except.ok affiliation
  else
    Except.error ⟨"MIT email address required for student affiliation!", some "lacks_mit_email"⟩

/-- Reading of the claim's phrase "is an @mit.edu address" following the
spec's words: an address of the exact domain `mit.edu` (case-insensitively).
Used only to compare the claim to the source's weaker suffix check. -/
def isMitEduAddress (email : String) : Bool :=
  lower_ends_with email "@mit.edu"

/-- Message of the error raised by `TripForm.clean_maximum_participants`. -/
def shrink_error_message : String :=
  "Can\x27t shrink trip past number of signed-up participants. To remove participants, admin this trip instead."

/-- The count `trip.signup_set.filter(on_trip=True).count()` used by
`TripForm.clean_maximum_participants`. -/
def accepted_signups (trip : Trip) : Nat :=
  (trip.signup_set.filter (fun s => s.on_trip)).length

/-- Embedding of `TripForm.clean_maximum_participants`: `trip` is the bound
instance and `new_max` the submitted `maximum_participants` value. -/
def clean_maximum_participants (trip : Trip) (new_max : Nat) :
    Except ValidationErrorInfo Nat :=
  match trip.pk with
  | none => Except.ok new_max
  | some _ =>
      if accepted_signups trip > new_max then
        Except.error ⟨shrink_error_message, none⟩
      else
        Except.ok new_max

/-- Embedding of `SignUpForm.clean_notes`. `cleaned_trip` is
`cleaned_data` at key `trip` (absent when the trip field failed validation),
`notes` the submitted notes. Python truthiness of `trip.notes` is
non-emptiness of the string. -/
def clean_notes (cleaned_trip : Option Trip) (notes : String) :
    Except ValidationErrorInfo String :=
  let signup_notes := stripped notes
  match cleaned_trip with
  | none => Except.ok signup_notes
  | some trip =>
      if trip.notes ≠ "" ∧ signup_notes = "" then
        Except.error ⟨"Please complete notes to sign up!", none⟩
      else
        Except.ok signup_notes

/-- Embedding of `TripForm.clean_winter_terrain_level`. `winter_rules_apply`
abstracts `enums.Program(program).winter_rules_apply()` (repository code
outside this module); `program` is `cleaned_data.get("program")` and
`winter_terrain_level` is `cleaned_data.get("winter_terrain_level")` (`none`
when the key is absent). Python truthiness of the program string is
non-emptiness. The result `none` models returning Python `None`. -/
def clean_winter_terrain_level (winter_rules_apply : String → Bool)
    (program : Option String) (winter_terrain_level : Option String) : Option String :=
  match program with
  | some p =>
      if p ≠ "" ∧ winter_rules_apply p = false then none
      else some (winter_terrain_level.getD "")
  | none => some (winter_terrain_level.getD "")

/-- Embedding of the `required` flag that `TripForm.__init__` assigns to the
`winter_terrain_level` field: if `self.data.get("program")` is truthy the flag
is `winter_rules_apply` of that program, otherwise (no bound data, or an empty
program value) the flag is `True`. -/
def winter_terrain_level_required (winter_rules_apply : String → Bool)
    (data_program : Option String) : Bool :=
  match data_program with
  | some p => if p = "" then true else winter_rules_apply p
  | none => true

/-- Reading of the claim's phrase "the submitted program is one to which
winter rules apply", following the spec's words, for comparison with the
source's required flag. -/
def submitted_program_has_winter_rules (winter_rules_apply : String → Bool)
    (data_program : Option String) : Bool :=
  match data_program with
  | some p => p ≠ "" && winter_rules_apply p
  | none => false

/-- Embedding of `TripForm.clean_membership_required`. `winter_school_value`
abstracts `enums.Program.WINTER_SCHOOL.value` (repository code outside this
module); `program` is `cleaned_data.get("program")`. -/
def clean_membership_required (winter_school_value : String)
    (program : Option String) (membership_required : Bool) : Bool :=
  if program = some winter_school_value then true
  else membership_required

/-- The leaders checked by `TripForm.clean`: for a persisted trip the
selected leaders minus those already attached
(`leaders.exclude(pk__in=trip.leaders.all())`), for an unsaved trip all of
them. -/
def new_leaders (trip : Trip) (leaders : List Participant) : List Participant :=
  match trip.pk with
  | some _ =>
      leaders.filter (fun par => !((trip.leaders.map (fun l => l.pk)).contains par.pk))
  | none => leaders

/-- The `lacking_privs` list computed by `TripForm.clean`: the checked leaders
who cannot lead the selected program. Empty when either key is missing from
the cleaned data. -/
def trip_clean_lacking_privs (cleaned_program : Option String)
    (cleaned_leaders : Option (List Participant)) (trip : Trip) : List Participant :=
  match cleaned_program, cleaned_leaders with
  | some program, some leaders =>
      (new_leaders trip leaders).filter (fun par => !(par.can_lead program))
  | _, _ => []

/-- Whether `TripForm.clean` calls `add_error` on the `leaders` field:
exactly when `lacking_privs` is non-empty. -/
def trip_clean_adds_leaders_error (cleaned_program : Option String)
    (cleaned_leaders : Option (List Participant)) (trip : Trip) : Bool :=
  !(trip_clean_lacking_privs cleaned_program cleaned_leaders trip).isEmpty

/-- The `Meta.exclude` tuple of the dynamic form built by
`LeaderApplicationForm`. -/
def leader_application_excluded_fields : List String :=
  ["archived", "year", "participant", "previous_rating"]

/-- A Django model form class as the claims view it: the model it is derived
from and its resulting field-name list. -/
structure ModelFormClass where
  model : String
  fields : List String
deriving DecidableEq

/-- Embedding of the `LeaderApplicationForm` factory. `model_from_activity`
abstracts `models.LeaderApplication.model_from_activity` (repository code
outside this module) and `model_fields` the ORM's field introspection for a
model; the Django `ModelForm` machinery derives the form's fields as the
model's fields minus `Meta.exclude`. -/
def LeaderApplicationForm (model_from_activity : String → String)
    (model_fields : String → List String) (activity_enum : String) : ModelFormClass :=
  let model := model_from_activity activity_enum
  ⟨model, (model_fields model).filter
    (fun f => !(leader_application_excluded_fields.contains f))⟩

/-- One field of a plain Django form: its name, whether its widget is a
`HiddenInput`, and its `initial` value rendered as a string. -/
structure FormField where
  name : String
  hidden : Bool
  initial : Option String
deriving DecidableEq

/-- The class-level field declarations of `DuesForm`, in declaration order.
`MERCHANT_ID` and `PAYMENT_TYPE` abstract the constants imported from
`ws.membership` (repository code outside this module). -/
def dues_class_fields (MERCHANT_ID : String) (PAYMENT_TYPE : String) : List FormField :=
  [⟨"merchant_id", true, some MERCHANT_ID⟩,
   ⟨"description", true, some "membership fees."⟩,
   ⟨"merchantDefinedData1", true, some PAYMENT_TYPE⟩,
   ⟨"merchantDefinedData2", false, none⟩,
   ⟨"merchantDefinedData3", false, none⟩,
   ⟨"merchantDefinedData4", false, none⟩,
   ⟨"amount", false, none⟩]

/-- Embedding of `DuesForm` after `__init__` ran for the given optional
participant: without a participant the `amount` initial is blanked; with one,
the e-mail, name, affiliation and dues amount initials are filled from the
participant. No field is ever added or removed. -/
def DuesForm (MERCHANT_ID : String) (PAYMENT_TYPE : String)
    (participant : Option Participant) : List FormField :=
  (dues_class_fields MERCHANT_ID PAYMENT_TYPE).map (fun f =>
    match participant with
    | none =>
        if f.name = "amount" then { f with initial := some "" } else f
    | some p =>
        if f.name = "merchantDefinedData3" then { f with initial := some p.email }
        else if f.name = "merchantDefinedData4" then { f with initial := some p.name }
        else if f.name = "merchantDefinedData2" then { f with initial := some p.affiliation }
        else if f.name = "amount" then { f with initial := some (toString p.annual_dues) }
        else f)

/-- Lookup of a form field by name. -/
def find_field (form : List FormField) (field_name : String) : Option FormField :=
  form.find? (fun f => f.name = field_name)

/-- An affiliation choice as yielded by `amount_choices`: a value (the
two-letter code, or the dues amount) and a label. -/
abbrev AffiliationChoice := (String ⊕ Nat) × String

/-- One item of `models.Participant.AFFILIATION_CHOICES`: either a label with
a grouped list of `(code, label)` pairs, or a top-level `(code, label)` pair
(where, as the source notes, label and option are switched). -/
abbrev AffiliationInput := String × (List (String × String) ⊕ String)

/-- Embedding of the inner `include_amount_in_label` of `amount_choices`.
`affiliation_to_annual_dues` abstracts the model's dues table (repository
code outside this module). -/
def include_amount_in_label (affiliation_to_annual_dues : String → Nat)
    (value_is_amount : Bool) (affiliation_code : String) (label : String) :
    AffiliationChoice :=
  let amount := affiliation_to_annual_dues affiliation_code
  let new_label := label ++ " ($" ++ toString amount ++ ")"
  if value_is_amount then (Sum.inr amount, new_label)
  else (Sum.inl affiliation_code, new_label)

/-- Embedding of `amount_choices`, mapping each `AFFILIATION_CHOICES` item
through `include_amount_in_label`. -/
def amount_choices (affiliation_to_annual_dues : String → Nat)
    (affiliation_choices : List AffiliationInput) (value_is_amount : Bool) :
    List ((String × List AffiliationChoice) ⊕ AffiliationChoice) :=
  affiliation_choices.map (fun item =>
    match item with
    | (label, Sum.inl option) =>
        Sum.inl (label, option.map (fun choice =>
          include_amount_in_label affiliation_to_annual_dues value_is_amount
            choice.1 choice.2))
    | (label, Sum.inr option) =>
        Sum.inr (include_amount_in_label affiliation_to_annual_dues value_is_amount
          label option))

/-- The grouping shape of a yielded choice: the group label for a grouped
item, `none` for a single choice. -/
def choice_shape : (String × List AffiliationChoice) ⊕ AffiliationChoice → Option String
  | Sum.inl (label, _) => some label
  | Sum.inr _ => none

/-- The labels of a yielded choice item. -/
def choice_labels : (String × List AffiliationChoice) ⊕ AffiliationChoice → List String
  | Sum.inl (_, choices) => choices.map (fun c => c.2)
  | Sum.inr c => [c.2]

/-- The values of a yielded choice item. -/
def choice_values :
    (String × List AffiliationChoice) ⊕ AffiliationChoice → List (String ⊕ Nat)
  | Sum.inl (_, choices) => choices.map (fun c => c.1)
  | Sum.inr c => [c.1]

/-- The `(code, label)` pairs of one input item: the grouped pairs, or the
single switched top-level pair. -/
def input_pairs : AffiliationInput → List (String × String)
  | (_, Sum.inl option) => option
  | (label, Sum.inr option) => [(label, option)]

/-- The claim's annotated label `label ($amount)` with the amount given by
the dues table. -/
def annotated_label (affiliation_to_annual_dues : String → Nat)
    (affiliation_code : String) (label : String) : String :=
  label ++ " ($" ++ toString (affiliation_to_annual_dues affiliation_code) ++ ")"

/-- C1 (counterexample): the address `tim@alum.mit.edu` is not an `@mit.edu`
address, and `MU` is an MIT student code, yet `clean_affiliation` accepts the
affiliation: the code checks only the suffix `mit.edu` of the lowercased
address, so the claimed "iff ... none is an @mit.edu address" fails. -/
theorem clean_affiliation_claim_counterexample :
    isMitEduAddress "tim@alum.mit.edu" = false ∧
    MIT_UNDERGRAD_CODE ∈ mit_student_codes ∧
    clean_affiliation ["tim@alum.mit.edu"] MIT_UNDERGRAD_CODE =
      Except.ok MIT_UNDERGRAD_CODE := by
  refine ⟨by decide, by decide, rfl⟩

/-- C1 (amended): `clean_affiliation` raises the `lacks_mit_email` error with
message "MIT email address required for student affiliation!" iff the
affiliation is an MIT student code and no verified e-mail address ends,
case-insensitively, with `mit.edu`; any affiliation outside the two student
codes is returned unchanged for every e-mail list. -/
theorem clean_affiliation_spec (verified_emails : List String) (affiliation : String) :
    (clean_affiliation verified_emails affiliation =
        Except.error
          ⟨"MIT email address required for student affiliation!", some "lacks_mit_email"⟩ ↔
      affiliation ∈ mit_student_codes ∧
        verified_emails.any (fun email => lower_ends_with email "mit.edu") = false) ∧
    (affiliation ∉ mit_student_codes →
      clean_affiliation verified_emails affiliation = Except.ok affiliation) := by
  unfold clean_affiliation
  by_cases h : affiliation ∈ mit_student_codes <;>
    by_cases h2 : verified_emails.any (fun email => lower_ends_with email "mit.edu") = true <;>
    simp_all

/-- C1 (witness): a non-student affiliation is returned unchanged. -/
theorem clean_affiliation_spec_witness :
    clean_affiliation ["tim@example.com"] "NA" = Except.ok "NA" :=
  (clean_affiliation_spec ["tim@example.com"] "NA").2 (by decide)

/-- C2: for a bound existing trip the shrink error is raised iff the count of
signups with `on_trip = true` exceeds the submitted maximum; shrinking exactly
to the accepted-signup count succeeds, a not-yet-created trip accepts any
maximum unchanged, and the error message begins with the claimed text. -/
theorem clean_maximum_participants_spec (trip : Trip) (new_max : Nat) :
    (trip.pk = none → clean_maximum_participants trip new_max = Except.ok new_max) ∧
    (trip.pk ≠ none →
      (clean_maximum_participants trip new_max = Except.error ⟨shrink_error_message, none⟩ ↔
        accepted_signups trip > new_max)) ∧
    (accepted_signups trip ≤ new_max →
      clean_maximum_participants trip new_max = Except.ok new_max) ∧
    ("Can\x27t shrink trip past number of signed-up participants.".data.isPrefixOf
      shrink_error_message.data = true) := by
  refine ⟨?_, ?_, ?_, by decide⟩
  · intro h
    simp [clean_maximum_participants, h]
  · intro h
    match hpk : trip.pk with
    | none => exact absurd hpk h
    | some k =>
        simp only [clean_maximum_participants, hpk]
        by_cases hgt : accepted_signups trip > new_max <;> simp [hgt]
  · intro h
    match hpk : trip.pk with
    | none => simp [clean_maximum_participants, hpk]
    | some k => simp [clean_maximum_participants, hpk, Nat.not_lt.mpr h]

/-- C2 (witness): a trip with two accepted signups can be shrunk to exactly
two, and cannot be shrunk to one. -/
theorem clean_maximum_participants_spec_witness :
    clean_maximum_participants ⟨some 7, [⟨true⟩, ⟨true⟩, ⟨false⟩], [], ""⟩ 2 =
      Except.ok 2 :=
  (clean_maximum_participants_spec ⟨some 7, [⟨true⟩, ⟨true⟩, ⟨false⟩], [], ""⟩ 2).2.2.1
    (by decide)

/-- C3: `clean_notes` raises "Please complete notes to sign up!" iff the trip
is present in the cleaned data with non-empty notes while the submitted notes
are empty after stripping whitespace; in every other case it returns the
stripped notes. -/
theorem clean_notes_spec (cleaned_trip : Option Trip) (notes : String) :
    (clean_notes cleaned_trip notes = Except.error ⟨"Please complete notes to sign up!", none⟩ ↔
      ∃ trip, cleaned_trip = some trip ∧ trip.notes ≠ "" ∧ stripped notes = "") ∧
    ((¬ ∃ trip, cleaned_trip = some trip ∧ trip.notes ≠ "" ∧ stripped notes = "") →
      clean_notes cleaned_trip notes = Except.ok (stripped notes)) := by
  match cleaned_trip with
  | none => simp [clean_notes]
  | some trip =>
      by_cases h : trip.notes ≠ "" ∧ stripped notes = "" <;>
        simp_all [clean_notes]

/-- C3 (witness): with no trip in the cleaned data, the stripped notes are
returned. -/
theorem clean_notes_spec_witness :
    clean_notes none "  hello " = Except.ok (stripped "  hello ") :=
  (clean_notes_spec none "  hello ").2 (by simp)

/-- C4: `clean_winter_terrain_level` returns `None` exactly when a (truthy)
program is selected whose winter rules do not apply; otherwise — winter-rules
program, or no program selected — it returns the submitted terrain level
unchanged, with the empty string when the field was absent. -/
theorem clean_winter_terrain_level_spec (winter_rules_apply : String → Bool)
    (program : Option String) (level : Option String) :
    (∀ p, program = some p → p ≠ "" → winter_rules_apply p = false →
      clean_winter_terrain_level winter_rules_apply program level = none) ∧
    (∀ p, program = some p → p ≠ "" → winter_rules_apply p = true →
      clean_winter_terrain_level winter_rules_apply program level =
        some (level.getD "")) ∧
    ((program = none ∨ program = some "") →
      clean_winter_terrain_level winter_rules_apply program level =
        some (level.getD "")) := by
  refine ⟨?_, ?_, ?_⟩
  · intro p hp hne hwra
    simp [clean_winter_terrain_level, hp, hne, hwra]
  · intro p hp hne hwra
    simp [clean_winter_terrain_level, hp, hne, hwra]
  · rintro (h | h) <;> simp [clean_winter_terrain_level, h]

/-- C4 (witness): a non-winter program strips the submitted level to `None`,
evaluated at a concrete program and level. -/
theorem clean_winter_terrain_level_spec_witness :
    clean_winter_terrain_level (fun _ => false) (some "hiking") (some "C1") = none :=
  (clean_winter_terrain_level_spec (fun _ => false) (some "hiking") (some "C1")).1
    "hiking" rfl (by decide) rfl

/-- C5 (counterexample): at a form construction with no submitted program (an
unbound new-trip form) the required flag is `True` even though no submitted
program has winter rules, refuting the claimed "required iff winter rules
apply" over every construction. -/
theorem winter_terrain_level_required_claim_counterexample :
    winter_terrain_level_required (fun _ => false) none = true ∧
    submitted_program_has_winter_rules (fun _ => false) none = false :=
  ⟨rfl, rfl⟩

/-- C5 (amended): whenever a non-empty program value is submitted, the
`winter_terrain_level` field's required flag is true iff winter rules apply to
that program; when no program value is submitted (or it is empty) the flag is
unconditionally true. -/
theorem winter_terrain_level_required_spec (winter_rules_apply : String → Bool)
    (data_program : Option String) :
    ((data_program = none ∨ data_program = some "") →
      winter_terrain_level_required winter_rules_apply data_program = true) ∧
    (∀ p, data_program = some p → p ≠ "" →
      (winter_terrain_level_required winter_rules_apply data_program = true ↔
        winter_rules_apply p = true)) := by
  refine ⟨?_, ?_⟩
  · rintro (h | h) <;> simp [winter_terrain_level_required, h]
  · intro p hp hne
    simp [winter_terrain_level_required, hp, hne]

/-- C5 (witness): with a non-empty winter-rules program submitted, the field
is required. -/
theorem winter_terrain_level_required_spec_witness :
    winter_terrain_level_required (fun _ => true) (some "winter_school") = true :=
  ((winter_terrain_level_required_spec (fun _ => true) (some "winter_school")).2
    "winter_school" rfl (by decide)).mpr rfl

/-- C8: `clean_membership_required` returns `True` whenever the cleaned
program equals the Winter School program value, regardless of the submitted
flag, and returns the submitted flag unchanged for every other program. -/
theorem clean_membership_required_spec (winter_school_value : String)
    (program : Option String) (membership_required : Bool) :
    (program = some winter_school_value →
      clean_membership_required winter_school_value program membership_required = true) ∧
    (program ≠ some winter_school_value →
      clean_membership_required winter_school_value program membership_required =
        membership_required) := by
  constructor <;> intro h <;> simp [clean_membership_required, h]

/-- C8 (witness): a Winter School trip keeps `membership_required` true even
when `False` was submitted, and another program keeps the submitted value. -/
theorem clean_membership_required_spec_witness :
    clean_membership_required "winter_school" (some "winter_school") false = true :=
  (clean_membership_required_spec "winter_school" (some "winter_school") false).1 rfl

/-- C6: for every activity, the factory's form is derived from
`model_from_activity` of that activity, and its fields are exactly that
model's fields minus the four excluded names — in particular `archived`,
`year`, `participant` and `previous_rating` never appear. -/
theorem LeaderApplicationForm_spec (model_from_activity : String → String)
    (model_fields : String → List String) (activity_enum : String) :
    (LeaderApplicationForm model_from_activity model_fields activity_enum).model =
      model_from_activity activity_enum ∧
    (∀ f, f ∈ (LeaderApplicationForm model_from_activity model_fields activity_enum).fields ↔
      f ∈ model_fields (model_from_activity activity_enum) ∧
        f ∉ leader_application_excluded_fields) := by
  refine ⟨rfl, ?_⟩
  intro f
  simp [LeaderApplicationForm, List.mem_filter, List.elem_iff]

/-- C6 (witness): a concrete model table containing `archived` loses it in
the resulting form while keeping the rest, and the model is the one the
activity maps to. -/
theorem LeaderApplicationForm_spec_witness :
    (LeaderApplicationForm (fun _ => "ClimbingLeaderApplication")
      (fun _ => ["archived", "advantages"]) "climbing").model =
      "ClimbingLeaderApplication" :=
  (LeaderApplicationForm_spec (fun _ => "ClimbingLeaderApplication")
    (fun _ => ["archived", "advantages"]) "climbing").1

/-- C7: for every participant argument (including none) the dues form's
field names are exactly the seven gateway names in order, and the three
hidden fields keep their constant initial values independent of the
participant. -/
theorem DuesForm_spec (MERCHANT_ID : String) (PAYMENT_TYPE : String)
    (participant : Option Participant) :
    (DuesForm MERCHANT_ID PAYMENT_TYPE participant).map FormField.name =
      ["merchant_id", "description", "merchantDefinedData1", "merchantDefinedData2",
       "merchantDefinedData3", "merchantDefinedData4", "amount"] ∧
    find_field (DuesForm MERCHANT_ID PAYMENT_TYPE participant) "merchant_id" =
      some ⟨"merchant_id", true, some MERCHANT_ID⟩ ∧
    find_field (DuesForm MERCHANT_ID PAYMENT_TYPE participant) "description" =
      some ⟨"description", true, some "membership fees."⟩ ∧
    find_field (DuesForm MERCHANT_ID PAYMENT_TYPE participant) "merchantDefinedData1" =
      some ⟨"merchantDefinedData1", true, some PAYMENT_TYPE⟩ := by
  cases participant <;> exact ⟨rfl, rfl, rfl, rfl⟩

/-- Helper: a Boolean non-emptiness test on lists. -/
theorem not_isEmpty_iff_exists_mem (l : List Participant) :
    (!l.isEmpty) = true ↔ ∃ x, x ∈ l := by
  cases l <;> simp

/-- Helper: membership in the `lacking_privs` list of `TripForm.clean` when
both cleaned keys are present. -/
theorem mem_trip_clean_lacking_privs (program : String) (leaders : List Participant)
    (trip : Trip) (par : Participant) :
    par ∈ trip_clean_lacking_privs (some program) (some leaders) trip ↔
      par ∈ leaders ∧ (trip.pk ≠ none → par.pk ∉ trip.leaders.map (fun l => l.pk)) ∧
        par.can_lead program = false := by
  cases htrip : trip.pk with
  | none =>
      simp [trip_clean_lacking_privs, new_leaders, htrip, List.mem_filter]
  | some k =>
      simp [trip_clean_lacking_privs, new_leaders, htrip, List.mem_filter,
        List.elem_iff, and_assoc]
      tauto

/-- C9: `TripForm.clean` flags the `leaders` field exactly when both program
and leaders survived field validation and some selected leader who is not
already attached to the persisted trip cannot lead the program; leaders
already attached to an existing trip are never checked. -/
theorem trip_clean_spec (cleaned_program : Option String)
    (cleaned_leaders : Option (List Participant)) (trip : Trip) :
    trip_clean_adds_leaders_error cleaned_program cleaned_leaders trip = true ↔
      ∃ program leaders, cleaned_program = some program ∧ cleaned_leaders = some leaders ∧
        ∃ par ∈ leaders,
          (trip.pk ≠ none → par.pk ∉ trip.leaders.map (fun l => l.pk)) ∧
          par.can_lead program = false := by
  cases cleaned_program with
  | none => simp [trip_clean_adds_leaders_error, trip_clean_lacking_privs]
  | some program =>
    cases cleaned_leaders with
    | none => simp [trip_clean_adds_leaders_error, trip_clean_lacking_privs]
    | some leaders =>
      rw [trip_clean_adds_leaders_error, not_isEmpty_iff_exists_mem]
      constructor
      · rintro ⟨par, hpar⟩
        rw [mem_trip_clean_lacking_privs] at hpar
        exact ⟨program, leaders, rfl, rfl, par, hpar.1, hpar.2.1, hpar.2.2⟩
      · rintro ⟨p2, l2, hp2, hl2, par, hmem, hni, hlead⟩
        cases hp2
        cases hl2
        exact ⟨par, (mem_trip_clean_lacking_privs _ _ _ _).mpr ⟨hmem, hni, hlead⟩⟩

/-- C9 (witness): a new trip with a single selected leader who cannot lead
the program gets a leaders error. -/
theorem trip_clean_spec_witness :
    trip_clean_adds_leaders_error (some "climbing")
      (some [⟨1, "Alice", "a@example.com", "NA", 40, fun _ => false⟩])
      ⟨none, [], [], ""⟩ = true :=
  (trip_clean_spec (some "climbing")
      (some [⟨1, "Alice", "a@example.com", "NA", 40, fun _ => false⟩])
      ⟨none, [], [], ""⟩).mpr
    ⟨"climbing", [⟨1, "Alice", "a@example.com", "NA", 40, fun _ => false⟩], rfl, rfl,
      ⟨1, "Alice", "a@example.com", "NA", 40, fun _ => false⟩, by simp,
      fun h => absurd rfl h, rfl⟩

/-- Helper: the label produced by `include_amount_in_label` is the annotated
label in both modes. -/
theorem include_amount_in_label_snd (affiliation_to_annual_dues : String → Nat)
    (value_is_amount : Bool) (affiliation_code : String) (label : String) :
    (include_amount_in_label affiliation_to_annual_dues value_is_amount
        affiliation_code label).2 =
      annotated_label affiliation_to_annual_dues affiliation_code label := by
  unfold include_amount_in_label annotated_label
  cases value_is_amount <;> rfl

/-- Helper: in code mode the produced value is the affiliation code. -/
theorem include_amount_in_label_fst_false (affiliation_to_annual_dues : String → Nat)
    (affiliation_code : String) (label : String) :
    (include_amount_in_label affiliation_to_annual_dues false
        affiliation_code label).1 = Sum.inl affiliation_code := rfl

/-- Helper: in amount mode the produced value is the dues amount. -/
theorem include_amount_in_label_fst_true (affiliation_to_annual_dues : String → Nat)
    (affiliation_code : String) (label : String) :
    (include_amount_in_label affiliation_to_annual_dues true
        affiliation_code label).1 =
      Sum.inr (affiliation_to_annual_dues affiliation_code) := rfl

/-- C10: both modes of `amount_choices` yield the same grouping and the same
annotated labels `label ($amount)` with the amount given by
`affiliation_to_annual_dues` of the code; the values are the two-letter codes
when `value_is_amount` is false and the dues amounts when it is true. -/
theorem amount_choices_spec (affiliation_to_annual_dues : String → Nat)
    (affiliation_choices : List AffiliationInput) :
    ((amount_choices affiliation_to_annual_dues affiliation_choices false).map choice_shape =
      (amount_choices affiliation_to_annual_dues affiliation_choices true).map choice_shape) ∧
    (∀ value_is_amount : Bool,
      (amount_choices affiliation_to_annual_dues affiliation_choices
          value_is_amount).map choice_labels =
        affiliation_choices.map (fun item => (input_pairs item).map
          (fun p => annotated_label affiliation_to_annual_dues p.1 p.2))) ∧
    ((amount_choices affiliation_to_annual_dues affiliation_choices false).map choice_values =
      affiliation_choices.map (fun item => (input_pairs item).map
        (fun p => (Sum.inl p.1 : String ⊕ Nat)))) ∧
    ((amount_choices affiliation_to_annual_dues affiliation_choices true).map choice_values =
      affiliation_choices.map (fun item => (input_pairs item).map
        (fun p => (Sum.inr (affiliation_to_annual_dues p.1) : String ⊕ Nat)))) := by
  refine ⟨?_, ?_, ?_, ?_⟩
  · simp only [amount_choices, List.map_map]
    congr 1
    funext item
    rcases item with ⟨label, opt | single⟩ <;> rfl
  · intro value_is_amount
    simp only [amount_choices, List.map_map]
    congr 1
    funext item
    rcases item with ⟨label, opt | single⟩ <;>
      simp [choice_labels, input_pairs, List.map_map, Function.comp,
        include_amount_in_label_snd]
  · simp only [amount_choices, List.map_map]
    congr 1
    funext item
    rcases item with ⟨label, opt | single⟩ <;>
      simp [choice_values, input_pairs, List.map_map, Function.comp,
        include_amount_in_label_fst_false]
  · simp only [amount_choices, List.map_map]
    congr 1
    funext item
    rcases item with ⟨label, opt | single⟩ <;>
      simp [choice_values, input_pairs, List.map_map, Function.comp,
        include_amount_in_label_fst_true]
